import Mathlib

/-!
Shallow embedding of `src/hardware/SonosButtonControl.ino` (ESP32 button
firmware).  The global mutable state of the sketch is collected in an
`AppState` structure; every side-effecting Arduino call (Serial prints,
LED writes, delays, WiFi calls, HTTP requests) is recorded as an `Effect`
in a trace, and each C++ function becomes a Lean function from state to
state paired with the trace it emits.  Machine integers (`unsigned long`,
32-bit on the ESP32) are modelled as `Nat` with explicit reduction modulo
2^32 where the code relies on wraparound.
-/

/-- The four persisted keys of the `Preferences` namespace `esp32app`.
`none` models an absent key; `getString key dflt` is `Option.getD`. -/
structure Prefs where
  wifiSsid : Option String
  wifiPass : Option String
  baseUrl : Option String
  apiKey : Option String
deriving Repr, DecidableEq

/-- `preferences.clear()` leaves every key absent. -/
def Prefs.cleared : Prefs := ⟨none, none, none, none⟩

/-- An HTTP request as issued by `HTTPClient` in `makeApiCall`: the URL,
whether the secure (`WiFiClientSecure`) transport was selected, and the
headers added before `GET()`. -/
structure HttpRequest where
  url : String
  secure : Bool
  headers : List (String × String)
deriving Repr, DecidableEq

/-- Observable side effects of the sketch, in program order.
`dispatch p` marks an invocation of `makeApiCall(p)` (the "activated"
event handed from the Input Monitor to the Request Dispatcher);
`httpRequest` is the actual network I/O performed by `GET()`. -/
inductive Effect where
  | serialPrint (line : String)
  | ledWrite (high : Bool)
  | delayMs (ms : Nat)
  | wifiBegin (ssid pass : String)
  | wifiDisconnect
  | dispatch (path : String)
  | httpRequest (req : HttpRequest)
deriving Repr, DecidableEq

/-- The sketch's global variables (`SonosButtonControl.ino` lines 11-28). -/
structure AppState where
  wifiSsid : String
  wifiPass : String
  baseUrl : String
  apiKey : String
  preferences : Prefs
  wifiConnected : Bool
  button1Pressed : Bool
  button2Pressed : Bool
  pressStartTime1 : Nat
  pressStartTime2 : Nat
deriving Repr, DecidableEq

/-- `const unsigned long MIN_PRESS_TIME = 50`. -/
def MIN_PRESS_TIME : Nat := 50

/-- Unsigned 32-bit subtraction `a - b` as computed on `unsigned long`
operands by the ESP32: both operands reduced mod 2^32, difference taken
modulo 2^32.  Used for `millis() - pressStartTimeN`. -/
def usub32 (a b : Nat) : Nat :=
  (a % 4294967296 + (4294967296 - b % 4294967296)) % 4294967296

/-- Arduino `String::startsWith`: byte-prefix test, embedded over the
underlying character list (structurally recursive so that concrete
instances evaluate). -/
def strStartsWith (s pre : String) : Bool :=
  pre.data.isPrefixOf s.data

/-- The `isspace` character class used by Arduino `String::trim`. -/
def isSpaceChar (c : Char) : Bool :=
  c == ' ' || c == '\t' || c == '\n' || c == Char.ofNat 11 || c == Char.ofNat 12 || c == '\r'

/-- Arduino `String::trim`: strip leading and trailing whitespace. -/
def strTrim (s : String) : String :=
  ⟨((s.data.dropWhile isSpaceChar).reverse.dropWhile isSpaceChar).reverse⟩

/-- Arduino `String::substring(n)`: the suffix from character index `n`. -/
def strDrop (s : String) (n : Nat) : String :=
  ⟨s.data.drop n⟩

/-- `loadConfig()` (lines 75-87): read the four keys with default `""`,
then log them. -/
def loadConfig (s : AppState) : AppState × List Effect :=
  let s' := { s with
    wifiSsid := s.preferences.wifiSsid.getD ""
    wifiPass := s.preferences.wifiPass.getD ""
    baseUrl := s.preferences.baseUrl.getD ""
    apiKey := s.preferences.apiKey.getD "" }
  (s', [Effect.serialPrint "Loaded configuration:",
        Effect.serialPrint ("WIFI_SSID: " ++ s'.wifiSsid),
        Effect.serialPrint ("BASE_URL: " ++ s'.baseUrl),
        Effect.serialPrint (if s'.apiKey.length > 0 then "API_KEY: [SET]" else "API_KEY: [NOT SET]")])

/-- `saveConfig()` (lines 89-96): write all four in-memory fields to the
store as a full snapshot, then log. -/
def saveConfig (s : AppState) : AppState × List Effect :=
  ({ s with preferences :=
      ⟨some s.wifiSsid, some s.wifiPass, some s.baseUrl, some s.apiKey⟩ },
   [Effect.serialPrint "Configuration saved"])

/-- `resetConfig()` (lines 173-194): clear the store, blank the in-memory
fields, disconnect WiFi, triple-blink the status LED. -/
def resetConfig (s : AppState) : AppState × List Effect :=
  ({ s with
      wifiSsid := ""
      wifiPass := ""
      baseUrl := ""
      apiKey := ""
      preferences := Prefs.cleared
      wifiConnected := false },
   [Effect.serialPrint "Resetting all configuration...",
    Effect.wifiDisconnect,
    Effect.ledWrite true, Effect.delayMs 100, Effect.ledWrite false, Effect.delayMs 100,
    Effect.ledWrite true, Effect.delayMs 100, Effect.ledWrite false, Effect.delayMs 100,
    Effect.ledWrite true, Effect.delayMs 100, Effect.ledWrite false, Effect.delayMs 100,
    Effect.serialPrint "All configuration reset"])

/-- The LED levels written during a trace, in order. -/
def ledWrites (effs : List Effect) : List Bool :=
  effs.filterMap fun e => match e with
    | Effect.ledWrite b => some b
    | _ => none

/-- Selects the request of an `httpRequest` effect. -/
def isHttpReq (e : Effect) : Option HttpRequest :=
  match e with
  | Effect.httpRequest r => some r
  | _ => none

/-- The HTTP requests actually issued during a trace. -/
def netRequests (effs : List Effect) : List HttpRequest :=
  effs.filterMap isHttpReq

/-- True exactly on the `dispatch p` marker. -/
def isDispatch (p : String) (e : Effect) : Bool :=
  match e with
  | Effect.dispatch q => q == p
  | _ => false

/-- How many times `makeApiCall` was invoked with path `p` in a trace. -/
def dispatchCount (p : String) (effs : List Effect) : Nat :=
  effs.countP (isDispatch p)

/-- Number of `delay` calls in a trace. -/
def delayCount (effs : List Effect) : Nat :=
  (effs.filter fun e => match e with
    | Effect.delayMs _ => true
    | _ => false).length

/-- Every `delay` in the trace is of `ms` milliseconds. -/
def allDelays (ms : Nat) (effs : List Effect) : Bool :=
  effs.all fun e => match e with
    | Effect.delayMs m => m = ms
    | _ => true

/-- The `while (WiFi.status() != WL_CONNECTED && attempts < 20)` loop of
`connectToWifi` (lines 109-117).  `q i` is the result of the `i`-th call
to `WiFi.status() == WL_CONNECTED`; C++ `&&` evaluates the status query
first, so one query is consumed on every condition check, including the
final one.  Returns the index of the next fresh status query (used by the
`if` on line 119) together with the loop-body trace.  `fuel = 20 -
attempts` bounds the iteration count exactly as `attempts < 20` does. -/
def connectLoop (q : Nat → Bool) (qi attempts fuel : Nat) : Nat × List Effect :=
  if q qi then (qi + 1, [])
  else
    match fuel with
    | 0 => (qi + 1, [])
    | fuel' + 1 =>
      let rest := connectLoop q (qi + 1) (attempts + 1) fuel'
      (rest.1,
       Effect.delayMs 500 :: Effect.serialPrint "." ::
       Effect.ledWrite (decide ((attempts + 1) % 2 = 1)) :: rest.2)

/-- `connectToWifi()` (lines 98-129).  `q` is the oracle of successive
`WiFi.status() == WL_CONNECTED` answers. -/
def connectToWifi (q : Nat → Bool) (s : AppState) : AppState × List Effect :=
  if s.wifiSsid.length = 0 || s.wifiPass.length = 0 then
    (s, [Effect.serialPrint "WiFi credentials not set"])
  else
    let pre := [Effect.serialPrint ("Connecting to WiFi: " ++ s.wifiSsid),
                Effect.wifiBegin s.wifiSsid s.wifiPass]
    let lp := connectLoop q 0 0 20
    if q lp.1 then
      ({ s with wifiConnected := true },
       pre ++ lp.2 ++
       [Effect.serialPrint "\nWiFi connected",
        Effect.serialPrint "IP address: ",
        Effect.ledWrite false])
    else
      ({ s with wifiConnected := false },
       pre ++ lp.2 ++ [Effect.serialPrint "\nFailed to connect to WiFi"])

/-- `makeApiCall(endpoint)` (lines 232-306).  `resp url = (code, body)`
is the transport oracle giving the result of `GET()`.  The leading
`Effect.dispatch` marks the invocation itself; no global variable is
assigned by the C++ function, so the state is returned unchanged. -/
def makeApiCall (resp : String → Int × String) (s : AppState) (endpoint : String) :
    AppState × List Effect :=
  if !s.wifiConnected || s.baseUrl.length = 0 then
    (s, [Effect.dispatch endpoint,
         Effect.serialPrint "Cannot make API call: WiFi not connected or Base URL not set"])
  else
    let url := s.baseUrl ++ endpoint
    let head := [Effect.dispatch endpoint,
                 Effect.serialPrint ("Making API call to: " ++ url)]
    if strStartsWith url "https://" then
      let headers := if s.apiKey.length > 0
        then [("Authorization", "Basic " ++ s.apiKey)] else []
      let code := (resp url).1
      (s, head ++
          [Effect.ledWrite true,
           Effect.httpRequest ⟨url, true, headers⟩] ++
          (if code > 0 then
            [Effect.serialPrint ("HTTPS Response code: " ++ toString code),
             Effect.serialPrint ("Response: " ++ (resp url).2)]
           else
            [Effect.serialPrint ("HTTPS Error code: " ++ toString code)]) ++
          [Effect.ledWrite false])
    else
      let headers := if s.apiKey.length > 0
        then [("Authorization", "Basic " ++ s.apiKey)] else []
      let code := (resp url).1
      (s, head ++
          [Effect.ledWrite true,
           Effect.httpRequest ⟨url, false, headers⟩] ++
          (if code > 0 then
            [Effect.serialPrint ("HTTP Response code: " ++ toString code),
             Effect.serialPrint ("Response: " ++ (resp url).2)]
           else
            [Effect.serialPrint ("HTTP Error code: " ++ toString code)]) ++
          [Effect.ledWrite false])

/-- The two button-1 `if` blocks of `checkButtonPressAndRelease()`
(lines 201-214): edge-arm on press, qualify-and-dispatch on release.
`button1State` is the level read by `digitalRead` (`true` = HIGH =
released, active-low wiring); `now` is the value of `millis()`. -/
def button1Step (resp : String → Int × String) (button1State : Bool)
    (now : Nat) (s : AppState) : AppState × List Effect :=
  let s1 :=
    if !button1State && !s.button1Pressed then
      { s with pressStartTime1 := now, button1Pressed := true }
    else s
  if button1State && s1.button1Pressed then
    if usub32 now s1.pressStartTime1 ≥ MIN_PRESS_TIME then
      let c := makeApiCall resp s1 "/play"
      ({ c.1 with button1Pressed := false },
       Effect.serialPrint "Button 1 pressed" :: c.2)
    else ({ s1 with button1Pressed := false }, [])
  else (s1, [])

/-- The two button-2 `if` blocks of `checkButtonPressAndRelease()`
(lines 216-229), identical in shape to button 1 but bound to `/pause`. -/
def button2Step (resp : String → Int × String) (button2State : Bool)
    (now : Nat) (s : AppState) : AppState × List Effect :=
  let s2 :=
    if !button2State && !s.button2Pressed then
      { s with pressStartTime2 := now, button2Pressed := true }
    else s
  if button2State && s2.button2Pressed then
    if usub32 now s2.pressStartTime2 ≥ MIN_PRESS_TIME then
      let c := makeApiCall resp s2 "/pause"
      ({ c.1 with button2Pressed := false },
       Effect.serialPrint "Button 2 pressed" :: c.2)
    else ({ s2 with button2Pressed := false }, [])
  else (s2, [])

/-- `checkButtonPressAndRelease()` (lines 196-230): the button-1 blocks
run first, then the button-2 blocks on the resulting state. -/
def checkButtonPressAndRelease (resp : String → Int × String)
    (button1State button2State : Bool) (now : Nat) (s : AppState) :
    AppState × List Effect :=
  let r1 := button1Step resp button1State now s
  let r2 := button2Step resp button2State now r1.1
  (r2.1, r1.2 ++ r2.2)

/-- Which branch of the `if`/`else if` chain of `checkSerialInput`
(lines 138-163) a trimmed command line selects. -/
inductive Cmd where
  | wifiSsidCmd
  | wifiPassCmd
  | baseUrlCmd
  | apiKeyCmd
  | flashReset
  | unknown
deriving Repr, DecidableEq

/-- The condition chain of `checkSerialInput`, in source order: the four
parameterized commands use `startsWith`, `FLASH_RESET` uses `==`. -/
def matchedCommand (command : String) : Cmd :=
  if strStartsWith command "WIFI_SSID " then Cmd.wifiSsidCmd
  else if strStartsWith command "WIFI_PASS " then Cmd.wifiPassCmd
  else if strStartsWith command "BASE_URL " then Cmd.baseUrlCmd
  else if strStartsWith command "API_KEY " then Cmd.apiKeyCmd
  else if command = "FLASH_RESET" then Cmd.flashReset
  else Cmd.unknown

/-- The body of `checkSerialInput()` (lines 131-171) once a complete line
`line` has been read by `readStringUntil` schema: trim, match, act, then
possibly reconnect.  `q` is the WiFi status oracle used if
`connectToWifi` runs. -/
def processLine (q : Nat → Bool) (line : String) (s : AppState) :
    AppState × List Effect :=
  let command := strTrim line
  let recv := Effect.serialPrint ("Received command: " ++ command)
  let step : AppState × List Effect :=
    match matchedCommand command with
    | Cmd.wifiSsidCmd =>
      let s1 := { s with wifiSsid := strDrop command 10 }
      let sv := saveConfig s1
      (sv.1, Effect.serialPrint ("WiFi SSID set to: " ++ s1.wifiSsid) :: sv.2)
    | Cmd.wifiPassCmd =>
      let s1 := { s with wifiPass := strDrop command 10 }
      let sv := saveConfig s1
      (sv.1, Effect.serialPrint "WiFi password set" :: sv.2)
    | Cmd.baseUrlCmd =>
      let s1 := { s with baseUrl := strDrop command 9 }
      let sv := saveConfig s1
      (sv.1, Effect.serialPrint ("Base URL set to: " ++ s1.baseUrl) :: sv.2)
    | Cmd.apiKeyCmd =>
      let s1 := { s with apiKey := strDrop command 8 }
      let sv := saveConfig s1
      (sv.1, Effect.serialPrint "API key set" :: sv.2)
    | Cmd.flashReset => resetConfig s
    | Cmd.unknown =>
      (s, [Effect.serialPrint ("Unknown command: " ++ command)])
  let reconn : AppState × List Effect :=
    if (strStartsWith command "WIFI_SSID " || strStartsWith command "WIFI_PASS ") &&
        step.1.wifiSsid.length > 0 && step.1.wifiPass.length > 0 then
      connectToWifi q step.1
    else (step.1, [])
  (reconn.1, recv :: (step.2 ++ reconn.2))

/-! ### Basic trace and string lemmas -/

theorem string_length_eq_zero (s : String) : s.length = 0 ↔ s = "" := by
  constructor
  · intro h
    cases s with
    | mk data =>
      cases data with
      | nil => rfl
      | cons a l => simp [String.length] at h
  · intro h
    subst h
    rfl

theorem dispatchCount_append (p : String) (a b : List Effect) :
    dispatchCount p (a ++ b) = dispatchCount p a + dispatchCount p b := by
  simp [dispatchCount, List.countP_append]

theorem dispatchCount_nil (p : String) : dispatchCount p [] = 0 := rfl

theorem isDispatch_serialPrint (p x : String) :
    isDispatch p (Effect.serialPrint x) = false := rfl

theorem isDispatch_ledWrite (p : String) (b : Bool) :
    isDispatch p (Effect.ledWrite b) = false := rfl

theorem isDispatch_httpRequest (p : String) (r : HttpRequest) :
    isDispatch p (Effect.httpRequest r) = false := rfl

theorem isDispatch_dispatch (p q : String) :
    isDispatch p (Effect.dispatch q) = (q == p) := rfl

theorem dispatchCount_cons_serial (p x : String) (l : List Effect) :
    dispatchCount p (Effect.serialPrint x :: l) = dispatchCount p l := by
  simp [dispatchCount, List.countP_cons, isDispatch]

theorem countP_isDispatch_respLogs (p x y z : String) (c : Prop) [Decidable c] :
    (if c then [Effect.serialPrint x, Effect.serialPrint y]
     else [Effect.serialPrint z]).countP (isDispatch p) = 0 := by
  split <;> rfl

/-! ### `makeApiCall` lemmas -/

theorem dispatchCount_makeApiCall (resp : String → Int × String) (s : AppState)
    (e p : String) :
    dispatchCount p (makeApiCall resp s e).2 = if e = p then 1 else 0 := by
  by_cases h : (!s.wifiConnected || s.baseUrl.length = 0) = true
  · rw [makeApiCall, if_pos h]
    by_cases he : e = p <;>
      simp [dispatchCount, List.countP_cons, isDispatch, he]
  · rw [makeApiCall, if_neg h]
    simp only []
    by_cases hs : strStartsWith (s.baseUrl ++ e) "https://" = true <;>
      [rw [if_pos hs]; rw [if_neg hs]] <;>
      by_cases he : e = p <;>
      simp [dispatchCount, List.countP_cons, List.countP_append,
        isDispatch_serialPrint, isDispatch_ledWrite, isDispatch_httpRequest,
        isDispatch_dispatch, countP_isDispatch_respLogs, he]

theorem makeApiCall_fst (resp : String → Int × String) (s : AppState) (e : String) :
    (makeApiCall resp s e).1 = s := by
  by_cases h : (!s.wifiConnected || s.baseUrl.length = 0) = true
  · rw [makeApiCall, if_pos h]
  · rw [makeApiCall, if_neg h]
    simp only []
    by_cases hs : strStartsWith (s.baseUrl ++ e) "https://" = true <;>
      [rw [if_pos hs]; rw [if_neg hs]]

/-! ### Per-button step lemmas -/

theorem button1Step_release (resp : String → Int × String) (now : Nat)
    (s : AppState) (h : s.button1Pressed = true) :
    dispatchCount "/play" (button1Step resp true now s).2 =
      (if MIN_PRESS_TIME ≤ usub32 now s.pressStartTime1 then 1 else 0) ∧
    (button1Step resp true now s).1.button1Pressed = false := by
  rw [button1Step]
  by_cases hc : MIN_PRESS_TIME ≤ usub32 now s.pressStartTime1 <;>
    simp [h, hc, dispatchCount_cons_serial, dispatchCount_makeApiCall,
      makeApiCall_fst, dispatchCount_nil]

theorem button2Step_release (resp : String → Int × String) (now : Nat)
    (s : AppState) (h : s.button2Pressed = true) :
    dispatchCount "/pause" (button2Step resp true now s).2 =
      (if MIN_PRESS_TIME ≤ usub32 now s.pressStartTime2 then 1 else 0) ∧
    (button2Step resp true now s).1.button2Pressed = false := by
  rw [button2Step]
  by_cases hc : MIN_PRESS_TIME ≤ usub32 now s.pressStartTime2 <;>
    simp [h, hc, dispatchCount_cons_serial, dispatchCount_makeApiCall,
      makeApiCall_fst, dispatchCount_nil]

theorem button1Step_no_pause (resp : String → Int × String) (b1 : Bool) (now : Nat)
    (s : AppState) : dispatchCount "/pause" (button1Step resp b1 now s).2 = 0 := by
  rw [button1Step]
  cases b1 <;>
    by_cases h : s.button1Pressed = true <;>
    by_cases hc : MIN_PRESS_TIME ≤ usub32 now s.pressStartTime1 <;>
    simp [h, hc, dispatchCount_cons_serial, dispatchCount_makeApiCall,
      dispatchCount_nil]

theorem button2Step_no_play (resp : String → Int × String) (b2 : Bool) (now : Nat)
    (s : AppState) : dispatchCount "/play" (button2Step resp b2 now s).2 = 0 := by
  rw [button2Step]
  cases b2 <;>
    by_cases h : s.button2Pressed = true <;>
    by_cases hc : MIN_PRESS_TIME ≤ usub32 now s.pressStartTime2 <;>
    simp [h, hc, dispatchCount_cons_serial, dispatchCount_makeApiCall,
      dispatchCount_nil]

theorem button1Step_frame2 (resp : String → Int × String) (b1 : Bool) (now : Nat)
    (s : AppState) :
    (button1Step resp b1 now s).1.button2Pressed = s.button2Pressed ∧
    (button1Step resp b1 now s).1.pressStartTime2 = s.pressStartTime2 := by
  rw [button1Step]
  cases b1 <;>
    by_cases h : s.button1Pressed = true <;>
    by_cases hc : MIN_PRESS_TIME ≤ usub32 now s.pressStartTime1 <;>
    simp [h, hc, makeApiCall_fst]

theorem button2Step_frame1 (resp : String → Int × String) (b2 : Bool) (now : Nat)
    (s : AppState) :
    (button2Step resp b2 now s).1.button1Pressed = s.button1Pressed ∧
    (button2Step resp b2 now s).1.pressStartTime1 = s.pressStartTime1 := by
  rw [button2Step]
  cases b2 <;>
    by_cases h : s.button2Pressed = true <;>
    by_cases hc : MIN_PRESS_TIME ≤ usub32 now s.pressStartTime2 <;>
    simp [h, hc, makeApiCall_fst]

theorem button1Step_press (resp : String → Int × String) (now : Nat)
    (s : AppState) (h : s.button1Pressed = false) :
    button1Step resp false now s =
      ({ s with pressStartTime1 := now, button1Pressed := true }, []) := by
  rw [button1Step]
  simp [h]

/-! ### Concrete fixtures used by witnesses and counterexamples -/

/-- A WiFi status oracle that never reports link success. -/
def qFalse : Nat → Bool := fun _ => false

/-- A WiFi status oracle whose link is up from the third query on. -/
def qLate : Nat → Bool := fun i => decide (3 ≤ i)

/-- A transport oracle answering 200 / "ok" to every URL. -/
def respOk : String → Int × String := fun _ => (200, "ok")

/-- Boot state: nothing configured, nothing stored, not connected. -/
def sEmpty : AppState := ⟨"", "", "", "", Prefs.cleared, false, false, false, 0, 0⟩

/-- A fully configured, connected state with a populated store. -/
def sStored : AppState :=
  ⟨"home", "secret1", "http://10.0.0.5", "dXNlcjpwYXNz",
   ⟨some "home", some "secret1", some "http://10.0.0.5", some "dXNlcjpwYXNz"⟩,
   true, false, false, 0, 0⟩

/-! ### Claim theorems -/

/-- C3: for every Configuration value (any four arbitrary strings,
including empty), `saveConfig` followed by `loadConfig` returns a
Configuration identical to the one saved, and `loadConfig` never fails,
substituting the empty string for any missing persisted key. -/
theorem c3_config_roundtrip (s : AppState) :
    ((loadConfig (saveConfig s).1).1.wifiSsid = s.wifiSsid ∧
     (loadConfig (saveConfig s).1).1.wifiPass = s.wifiPass ∧
     (loadConfig (saveConfig s).1).1.baseUrl = s.baseUrl ∧
     (loadConfig (saveConfig s).1).1.apiKey = s.apiKey) ∧
    ((loadConfig s).1.wifiSsid = s.preferences.wifiSsid.getD "" ∧
     (loadConfig s).1.wifiPass = s.preferences.wifiPass.getD "" ∧
     (loadConfig s).1.baseUrl = s.preferences.baseUrl.getD "" ∧
     (loadConfig s).1.apiKey = s.preferences.apiKey.getD "") := by
  simp [loadConfig, saveConfig]

/-- C4: after `resetConfig`, from any prior state, a subsequent
`loadConfig` returns the all-empty Configuration, all four in-memory
fields are empty, the WiFi flag is down, and the status LED emits three
on/off pulses. -/
theorem c4_flash_reset (s : AppState) :
    ((loadConfig (resetConfig s).1).1.wifiSsid = "" ∧
     (loadConfig (resetConfig s).1).1.wifiPass = "" ∧
     (loadConfig (resetConfig s).1).1.baseUrl = "" ∧
     (loadConfig (resetConfig s).1).1.apiKey = "") ∧
    ((resetConfig s).1.wifiSsid = "" ∧ (resetConfig s).1.wifiPass = "" ∧
     (resetConfig s).1.baseUrl = "" ∧ (resetConfig s).1.apiKey = "") ∧
    (resetConfig s).1.preferences = Prefs.cleared ∧
    (resetConfig s).1.wifiConnected = false ∧
    ledWrites (resetConfig s).2 = [true, false, true, false, true, false] := by
  simp [loadConfig, resetConfig, Prefs.cleared, ledWrites]

/-- C2: a `makeApiCall` issued while the WiFi flag is down or the base
URL is empty performs no network I/O: it only logs a reason and returns
with the state untouched. -/
theorem c2_dispatch_precondition (resp : String → Int × String) (s : AppState)
    (endpoint : String) (h : s.wifiConnected = false ∨ s.baseUrl = "") :
    makeApiCall resp s endpoint =
      (s, [Effect.dispatch endpoint,
           Effect.serialPrint "Cannot make API call: WiFi not connected or Base URL not set"]) ∧
    netRequests (makeApiCall resp s endpoint).2 = [] := by
  have hg : (!s.wifiConnected || s.baseUrl.length = 0) = true := by
    rcases h with h | h
    · simp [h]
    · rw [h]
      simp
  refine ⟨?_, ?_⟩ <;> rw [makeApiCall, if_pos hg]
  rfl

/-- Witness for C2 at the boot state (WiFi flag down). -/
theorem c2_dispatch_precondition_witness :
    makeApiCall respOk sEmpty "/play" =
      (sEmpty, [Effect.dispatch "/play",
                Effect.serialPrint "Cannot make API call: WiFi not connected or Base URL not set"]) ∧
    netRequests (makeApiCall respOk sEmpty "/play").2 = [] :=
  c2_dispatch_precondition respOk sEmpty "/play" (Or.inl rfl)

/-- C7: `connectToWifi` with an empty stored network name or secret is a
no-op: no `WiFi.begin`, no delay, no state change, only the logged
precondition failure. -/
theorem c7_connect_noop (q : Nat → Bool) (s : AppState)
    (h : s.wifiSsid = "" ∨ s.wifiPass = "") :
    connectToWifi q s = (s, [Effect.serialPrint "WiFi credentials not set"]) := by
  have hg : (s.wifiSsid.length = 0 || s.wifiPass.length = 0) = true := by
    rcases h with h | h <;> rw [h] <;> simp
  rw [connectToWifi, if_pos hg]

/-- Witness for C7 at the boot state (both credentials empty). -/
theorem c7_connect_noop_witness :
    connectToWifi qFalse sEmpty = (sEmpty, [Effect.serialPrint "WiFi credentials not set"]) :=
  c7_connect_noop qFalse sEmpty (Or.inl rfl)

/-- C1: on each poll cycle, a release (HIGH level while the channel is
marked down) emits exactly one activated event — a `makeApiCall` dispatch
of the channel's bound path — iff the 32-bit elapsed time since the
recorded press start is at least `MIN_PRESS_TIME` (50 ms), and emits none
otherwise; in either case the channel's down mark is cleared.  Holds for
both channels, whatever the other channel's level is. -/
theorem c1_debounce_activation (resp : String → Int × String) (now : Nat) (s : AppState) :
    (s.button1Pressed = true → ∀ b2 : Bool,
      dispatchCount "/play" (checkButtonPressAndRelease resp true b2 now s).2 =
        (if MIN_PRESS_TIME ≤ usub32 now s.pressStartTime1 then 1 else 0) ∧
      (checkButtonPressAndRelease resp true b2 now s).1.button1Pressed = false) ∧
    (s.button2Pressed = true → ∀ b1 : Bool,
      dispatchCount "/pause" (checkButtonPressAndRelease resp b1 true now s).2 =
        (if MIN_PRESS_TIME ≤ usub32 now s.pressStartTime2 then 1 else 0) ∧
      (checkButtonPressAndRelease resp b1 true now s).1.button2Pressed = false) := by
  constructor
  · intro h b2
    have h1 := button1Step_release resp now s h
    have h2 := button2Step_no_play resp b2 now (button1Step resp true now s).1
    have h3 := button2Step_frame1 resp b2 now (button1Step resp true now s).1
    simp only [checkButtonPressAndRelease]
    refine ⟨?_, ?_⟩
    · rw [dispatchCount_append, h1.1, h2]
      exact Nat.add_zero _
    · rw [h3.1, h1.2]
  · intro h b1
    have hf := button1Step_frame2 resp b1 now s
    have h1 := button2Step_release resp now (button1Step resp b1 now s).1
      (by rw [hf.1, h])
    have h2 := button1Step_no_pause resp b1 now s
    simp only [checkButtonPressAndRelease]
    refine ⟨?_, ?_⟩
    · rw [dispatchCount_append, h1.1, h2, hf.2]
      exact Nat.zero_add _
    · exact h1.2

/-- Witness for C1: channel 1 held down since time 0 and released at
time 100 dispatches `/play` exactly once and clears the down mark. -/
theorem c1_debounce_activation_witness :
    dispatchCount "/play"
      (checkButtonPressAndRelease respOk true true 100
        { sEmpty with button1Pressed := true }).2 = 1 ∧
    (checkButtonPressAndRelease respOk true true 100
        { sEmpty with button1Pressed := true }).1.button1Pressed = false := by
  have h := (c1_debounce_activation respOk 100 { sEmpty with button1Pressed := true }).1 rfl true
  refine ⟨?_, h.2⟩
  rw [h.1]
  decide

/-- Trace of one poll cycle split into the two per-button halves. -/
theorem check_count (resp : String → Int × String) (b1 b2 : Bool) (now : Nat)
    (s : AppState) (p : String) :
    dispatchCount p (checkButtonPressAndRelease resp b1 b2 now s).2 =
      dispatchCount p (button1Step resp b1 now s).2 +
      dispatchCount p (button2Step resp b2 now (button1Step resp b1 now s).1).2 := by
  simp only [checkButtonPressAndRelease]
  exact dispatchCount_append p _ _

/-- C10: the debounce elapsed-time test uses unsigned 32-bit modular
subtraction (`usub32`) of the press-start `millis()` sample from the
release-time sample, so for a press at real time `t0` and release at
real time `t1` (elapsed under 2^32 ms) the qualification decision
matches the true elapsed time even when the counter wraps between the
two samples. -/
theorem c10_wraparound (resp : String → Int × String) (b2 : Bool) (t0 t1 : Nat)
    (s : AppState) (h0 : t0 ≤ t1) (h1 : t1 - t0 < 4294967296)
    (hb : s.button1Pressed = false) :
    usub32 (t1 % 4294967296) (t0 % 4294967296) = t1 - t0 ∧
    dispatchCount "/play"
      (checkButtonPressAndRelease resp true b2 (t1 % 4294967296)
        (checkButtonPressAndRelease resp false b2 (t0 % 4294967296) s).1).2 =
      (if MIN_PRESS_TIME ≤ t1 - t0 then 1 else 0) := by
  have hu : usub32 (t1 % 4294967296) (t0 % 4294967296) = t1 - t0 := by
    unfold usub32
    omega
  refine ⟨hu, ?_⟩
  have hps := button1Step_press resp (t0 % 4294967296) s hb
  have hfr := button2Step_frame1 resp b2 (t0 % 4294967296)
    { s with pressStartTime1 := t0 % 4294967296, button1Pressed := true }
  have hp1 : (checkButtonPressAndRelease resp false b2 (t0 % 4294967296) s).1.button1Pressed = true := by
    simp only [checkButtonPressAndRelease]
    rw [hps]
    rw [hfr.1]
  have hp2 : (checkButtonPressAndRelease resp false b2 (t0 % 4294967296) s).1.pressStartTime1 =
      t0 % 4294967296 := by
    simp only [checkButtonPressAndRelease]
    rw [hps]
    rw [hfr.2]
  have h1r := button1Step_release resp (t1 % 4294967296)
    (checkButtonPressAndRelease resp false b2 (t0 % 4294967296) s).1 hp1
  have h2r := button2Step_no_play resp b2 (t1 % 4294967296)
    (button1Step resp true (t1 % 4294967296)
      (checkButtonPressAndRelease resp false b2 (t0 % 4294967296) s).1).1
  rw [check_count, h1r.1, h2r, hp2, hu]
  exact Nat.add_zero _

/-- Witness for C10: press 20 ms before the 32-bit millisecond counter
wraps, release 40 ms after the wrap — elapsed 60 ms qualifies. -/
theorem c10_wraparound_witness :
    usub32 (4294967336 % 4294967296) (4294967276 % 4294967296) = 60 ∧
    dispatchCount "/play"
      (checkButtonPressAndRelease respOk true true (4294967336 % 4294967296)
        (checkButtonPressAndRelease respOk false true (4294967276 % 4294967296) sEmpty).1).2 = 1 := by
  have h := c10_wraparound respOk true 4294967276 4294967336 sEmpty (by omega) (by omega) rfl
  refine ⟨?_, ?_⟩
  · rw [h.1]
  · rw [h.2]
    decide

/-! ### `netRequests` rewrite lemmas -/

theorem netRequests_nil : netRequests [] = [] := rfl

theorem netRequests_append (a b : List Effect) :
    netRequests (a ++ b) = netRequests a ++ netRequests b := by
  simp [netRequests, List.filterMap_append]

theorem netRequests_cons_serial (x : String) (l : List Effect) :
    netRequests (Effect.serialPrint x :: l) = netRequests l := by
  simp [netRequests, List.filterMap_cons, isHttpReq]

theorem netRequests_cons_dispatch (p : String) (l : List Effect) :
    netRequests (Effect.dispatch p :: l) = netRequests l := by
  simp [netRequests, List.filterMap_cons, isHttpReq]

theorem netRequests_cons_led (b : Bool) (l : List Effect) :
    netRequests (Effect.ledWrite b :: l) = netRequests l := by
  simp [netRequests, List.filterMap_cons, isHttpReq]

theorem netRequests_cons_http (r : HttpRequest) (l : List Effect) :
    netRequests (Effect.httpRequest r :: l) = r :: netRequests l := by
  simp [netRequests, List.filterMap_cons, isHttpReq]

/-- The response-log alternative contains no network request. -/
theorem netRequests_respLogs (x y z : String) (c : Prop) [Decidable c] :
    netRequests (if c then [Effect.serialPrint x, Effect.serialPrint y]
                 else [Effect.serialPrint z]) = [] := by
  unfold netRequests
  split <;> rfl

/-- C6: when the dispatch preconditions hold, exactly one GET request is
issued, to base address plus path, over the transport selected by the
`https://` prefix; the `Authorization: Basic <credential>` header (the
credential verbatim) is attached iff the credential is non-empty, on
either transport branch. -/
theorem c6_auth_header (resp : String → Int × String) (s : AppState) (endpoint : String)
    (hw : s.wifiConnected = true) (hb : s.baseUrl ≠ "") :
    netRequests (makeApiCall resp s endpoint).2 =
      [⟨s.baseUrl ++ endpoint, strStartsWith (s.baseUrl ++ endpoint) "https://",
        if s.apiKey = "" then [] else [("Authorization", "Basic " ++ s.apiKey)]⟩] := by
  have hg : ¬((!s.wifiConnected || s.baseUrl.length = 0) = true) := by
    simp [hw, string_length_eq_zero, hb]
  rw [makeApiCall, if_neg hg]
  simp only []
  by_cases hs : strStartsWith (s.baseUrl ++ endpoint) "https://" = true <;>
    [rw [if_pos hs]; rw [if_neg hs]] <;>
    by_cases hk : s.apiKey = ""
  · have hkl : (s.apiKey.length > 0) = False := by
      rw [hk]
      simp
    simp [netRequests_append, netRequests_cons_serial, netRequests_cons_dispatch,
      netRequests_cons_led, netRequests_cons_http, netRequests_respLogs,
      netRequests_nil, hkl, hk, hs]
  · have hkl : 0 < s.apiKey.length :=
      Nat.pos_of_ne_zero fun hh => hk ((string_length_eq_zero _).mp hh)
    simp [netRequests_append, netRequests_cons_serial, netRequests_cons_dispatch,
      netRequests_cons_led, netRequests_cons_http, netRequests_respLogs,
      netRequests_nil, hkl, hk, hs]
  · have hkl : (s.apiKey.length > 0) = False := by
      rw [hk]
      simp
    rw [Bool.not_eq_true] at hs
    simp [netRequests_append, netRequests_cons_serial, netRequests_cons_dispatch,
      netRequests_cons_led, netRequests_cons_http, netRequests_respLogs,
      netRequests_nil, hkl, hk, hs]
  · have hkl : 0 < s.apiKey.length :=
      Nat.pos_of_ne_zero fun hh => hk ((string_length_eq_zero _).mp hh)
    rw [Bool.not_eq_true] at hs
    simp [netRequests_append, netRequests_cons_serial, netRequests_cons_dispatch,
      netRequests_cons_led, netRequests_cons_http, netRequests_respLogs,
      netRequests_nil, hkl, hk, hs]

/-- A connected state with an HTTPS base address and no credential. -/
def sHttps : AppState :=
  ⟨"home", "secret1", "https://api.example.com", "",
   ⟨some "home", some "secret1", some "https://api.example.com", some ""⟩,
   true, false, false, 0, 0⟩

/-- Witness for C6: with credential `dXNlcjpwYXNz` over plain HTTP the
header is attached verbatim; with an empty credential over HTTPS no
header is attached. -/
theorem c6_auth_header_witness :
    netRequests (makeApiCall respOk sStored "/play").2 =
      [⟨"http://10.0.0.5/play", false, [("Authorization", "Basic dXNlcjpwYXNz")]⟩] ∧
    netRequests (makeApiCall respOk sHttps "/pause").2 =
      [⟨"https://api.example.com/pause", true, []⟩] := by
  have h1 := c6_auth_header respOk sStored "/play" rfl (by decide)
  have h2 := c6_auth_header respOk sHttps "/pause" rfl (by decide)
  rw [h1, h2]
  refine ⟨?_, ?_⟩ <;> decide

/-- A trimmed line the chain classifies as unknown matches none of the
four parameterized prefixes. -/
theorem matched_unknown_not_prefix (c : String) (h : matchedCommand c = Cmd.unknown) :
    strStartsWith c "WIFI_SSID " = false ∧ strStartsWith c "WIFI_PASS " = false := by
  unfold matchedCommand at h
  split_ifs at h with h1 h2 h3 h4 h5
  simp_all

/-- C9: a line whose trimmed form matches none of the five recognized
commands leaves the whole state (configuration fields, persisted store,
WiFi flag) unchanged and produces exactly the received-command and
unknown-command log entries. -/
theorem c9_unknown_command (q : Nat → Bool) (line : String) (s : AppState)
    (h : matchedCommand (strTrim line) = Cmd.unknown) :
    (processLine q line s).1 = s ∧
    (processLine q line s).2 =
      [Effect.serialPrint ("Received command: " ++ strTrim line),
       Effect.serialPrint ("Unknown command: " ++ strTrim line)] := by
  obtain ⟨h1, h2⟩ := matched_unknown_not_prefix (strTrim line) h
  simp [processLine, h, h1, h2]

/-- Witness for C9 at the unrecognized line `FOO BAR` from Scenario D. -/
theorem c9_unknown_command_witness :
    (processLine qFalse "FOO BAR" sStored).1 = sStored ∧
    (processLine qFalse "FOO BAR" sStored).2 =
      [Effect.serialPrint ("Received command: " ++ strTrim "FOO BAR"),
       Effect.serialPrint ("Unknown command: " ++ strTrim "FOO BAR")] :=
  c9_unknown_command qFalse "FOO BAR" sStored (by decide)

/-- C5 counterexample: the trimmed line `FLASH_RESET NOW` begins with the
literal prefix `FLASH_RESET`, yet the chain classifies it as unknown and
processing it performs no reset (the populated store is untouched). -/
theorem c5_counterexample :
    strStartsWith (strTrim "FLASH_RESET NOW") "FLASH_RESET" = true ∧
    matchedCommand (strTrim "FLASH_RESET NOW") = Cmd.unknown ∧
    (processLine qFalse "FLASH_RESET NOW" sStored).1 = sStored ∧
    (processLine qFalse "FLASH_RESET NOW" sStored).1.preferences ≠ Prefs.cleared := by
  refine ⟨by decide, by decide, by decide, by decide⟩

/-- C5 amended: the four parameterized commands are matched by literal
prefix of the trimmed line, but `FLASH_RESET` is matched by exact
equality: the chain selects the reset branch iff the trimmed line equals
`FLASH_RESET`, and in that case processing performs the reset (store
cleared, WiFi flag down). -/
theorem c5_flash_reset_exact_match (line : String) (q : Nat → Bool) (s : AppState) :
    (matchedCommand (strTrim line) = Cmd.flashReset ↔ strTrim line = "FLASH_RESET") ∧
    (strTrim line = "FLASH_RESET" →
      (processLine q line s).1.preferences = Prefs.cleared ∧
      (processLine q line s).1.wifiConnected = false) := by
  constructor
  · constructor
    · intro h
      unfold matchedCommand at h
      split_ifs at h with h1 h2 h3 h4 h5
      exact h5
    · intro h
      rw [matchedCommand, h]
      decide
  · intro h
    have hm : matchedCommand (strTrim line) = Cmd.flashReset := by
      rw [matchedCommand, h]
      decide
    have hns : strStartsWith (strTrim line) "WIFI_SSID " = false := by
      rw [h]
      decide
    have hnp : strStartsWith (strTrim line) "WIFI_PASS " = false := by
      rw [h]
      decide
    simp [processLine, hm, hns, hnp, resetConfig]

/-- Witness for the amended C5: ` FLASH_RESET ` (whitespace only) trims
to an exact match and processing it clears the populated store. -/
theorem c5_flash_reset_exact_match_witness :
    matchedCommand (strTrim " FLASH_RESET ") = Cmd.flashReset ∧
    (processLine qFalse " FLASH_RESET " sStored).1.preferences = Prefs.cleared := by
  refine ⟨(c5_flash_reset_exact_match " FLASH_RESET " qFalse sStored).1.mpr (by decide),
          ((c5_flash_reset_exact_match " FLASH_RESET " qFalse sStored).2 (by decide)).1⟩

/-- The connection loop performs at most `fuel` delays, all of 500 ms. -/
theorem connectLoop_delays (q : Nat → Bool) (fuel : Nat) : ∀ qi a : Nat,
    delayCount (connectLoop q qi a fuel).2 ≤ fuel ∧
    allDelays 500 (connectLoop q qi a fuel).2 = true := by
  induction fuel with
  | zero =>
    intro qi a
    rw [connectLoop]
    split
    · exact ⟨Nat.le_refl 0, rfl⟩
    · exact ⟨Nat.le_refl 0, rfl⟩
  | succ f ih =>
    intro qi a
    by_cases hq : q qi = true
    · rw [connectLoop, if_pos hq]
      exact ⟨Nat.zero_le _, rfl⟩
    · rw [connectLoop, if_neg hq]
      have h := ih (qi + 1) (a + 1)
      constructor
      · have hd : delayCount (Effect.delayMs 500 :: Effect.serialPrint "." ::
            Effect.ledWrite (decide ((a + 1) % 2 = 1)) ::
            (connectLoop q (qi + 1) (a + 1) f).2) =
            delayCount (connectLoop q (qi + 1) (a + 1) f).2 + 1 := by
          simp [delayCount]
        simp only []
        rw [hd]
        omega
      · have ha : allDelays 500 (Effect.delayMs 500 :: Effect.serialPrint "." ::
            Effect.ledWrite (decide ((a + 1) % 2 = 1)) ::
            (connectLoop q (qi + 1) (a + 1) f).2) =
            allDelays 500 (connectLoop q (qi + 1) (a + 1) f).2 := by
          simp [allDelays]
        simp only []
        rw [ha]
        exact h.2

/-- If the link comes up (and stays up) at some query index within the
loop's budget, the status check after the loop sees it up. -/
theorem connectLoop_success (q : Nat → Bool)
    (hm : ∀ i j, i ≤ j → q i = true → q j = true) (fuel : Nat) : ∀ qi a : Nat,
    (∃ j, j ≤ qi + fuel ∧ q j = true) → q (connectLoop q qi a fuel).1 = true := by
  induction fuel with
  | zero =>
    intro qi a ⟨j, hj, hq⟩
    have hq1 : q (qi + 1) = true := hm j (qi + 1) (by omega) hq
    rw [connectLoop]
    split
    · exact hq1
    · exact hq1
  | succ f ih =>
    intro qi a hex
    by_cases hq0 : q qi = true
    · rw [connectLoop, if_pos hq0]
      exact hm qi (qi + 1) (Nat.le_succ qi) hq0
    · rw [connectLoop, if_neg hq0]
      simp only []
      apply ih (qi + 1) (a + 1)
      obtain ⟨j, hj, hq⟩ := hex
      rcases Nat.lt_or_ge qi j with hlt | hge
      · exact ⟨j, by omega, hq⟩
      · exact absurd (hm j qi hge hq) hq0

theorem delayCount_pre (x a b : String) :
    delayCount [Effect.serialPrint x, Effect.wifiBegin a b] = 0 := rfl

theorem delayCount_suffix3 (x y : String) (bl : Bool) :
    delayCount [Effect.serialPrint x, Effect.serialPrint y, Effect.ledWrite bl] = 0 := rfl

theorem delayCount_suffix1 (x : String) :
    delayCount [Effect.serialPrint x] = 0 := rfl

theorem allDelays_pre (ms : Nat) (x a b : String) :
    allDelays ms [Effect.serialPrint x, Effect.wifiBegin a b] = true := rfl

theorem allDelays_suffix3 (ms : Nat) (x y : String) (bl : Bool) :
    allDelays ms [Effect.serialPrint x, Effect.serialPrint y, Effect.ledWrite bl] = true := rfl

theorem allDelays_suffix1 (ms : Nat) (x : String) :
    allDelays ms [Effect.serialPrint x] = true := rfl

theorem delayCount_append (a b : List Effect) :
    delayCount (a ++ b) = delayCount a + delayCount b := by
  simp [delayCount, List.filter_append]

theorem allDelays_append (ms : Nat) (a b : List Effect) :
    allDelays ms (a ++ b) = (allDelays ms a && allDelays ms b) := by
  simp [allDelays, List.all_append]

/-- C8: with non-empty credentials `connectToWifi` terminates after at
most 20 link-status polls at 500 ms spacing; if the link never comes up
the WiFi flag ends false (Disconnected), and if the link is up by some
query within the 20-poll budget (and stays up) the flag ends true
(Connected). -/
theorem c8_bounded_connect (q : Nat → Bool) (s : AppState)
    (hs : s.wifiSsid ≠ "") (hp : s.wifiPass ≠ "") :
    (delayCount (connectToWifi q s).2 ≤ 20 ∧
     allDelays 500 (connectToWifi q s).2 = true) ∧
    ((∀ i, q i = false) → (connectToWifi q s).1.wifiConnected = false) ∧
    ((∀ i j, i ≤ j → q i = true → q j = true) →
      (∃ i, i ≤ 20 ∧ q i = true) → (connectToWifi q s).1.wifiConnected = true) := by
  have hg : ¬((s.wifiSsid.length = 0 || s.wifiPass.length = 0) = true) := by
    simp [string_length_eq_zero, hs, hp]
  have hloop := connectLoop_delays q 20 0 0
  have h1 := hloop.1
  have h2 := hloop.2
  refine ⟨?_, ?_, ?_⟩
  · rw [connectToWifi, if_neg hg]
    simp only []
    by_cases hql : q (connectLoop q 0 0 20).1 = true
    · rw [if_pos hql]
      refine ⟨?_, ?_⟩
      · rw [delayCount_append, delayCount_append, delayCount_pre, delayCount_suffix3]
        omega
      · rw [allDelays_append, allDelays_append, allDelays_pre, allDelays_suffix3, h2]
        rfl
    · rw [if_neg hql]
      refine ⟨?_, ?_⟩
      · rw [delayCount_append, delayCount_append, delayCount_pre, delayCount_suffix1]
        omega
      · rw [allDelays_append, allDelays_append, allDelays_pre, allDelays_suffix1, h2]
        rfl
  · intro hall
    rw [connectToWifi, if_neg hg]
    simp only []
    rw [if_neg (by simp [hall])]
  · intro hm hex
    have hsucc : q (connectLoop q 0 0 20).1 = true :=
      connectLoop_success q hm 20 0 0 (by
        obtain ⟨i, hi, hq⟩ := hex
        exact ⟨i, by omega, hq⟩)
    rw [connectToWifi, if_neg hg]
    simp only []
    rw [if_pos hsucc]

/-- Witness for C8: with credentials set and a link that never comes up,
the loop performs at most 20 delays and ends Disconnected; with a link up
from the third query on, it ends Connected. -/
theorem c8_bounded_connect_witness :
    delayCount (connectToWifi qFalse sStored).2 ≤ 20 ∧
    (connectToWifi qFalse sStored).1.wifiConnected = false ∧
    (connectToWifi qLate sStored).1.wifiConnected = true := by
  have h1 := c8_bounded_connect qFalse sStored (by decide) (by decide)
  have h2 := c8_bounded_connect qLate sStored (by decide) (by decide)
  refine ⟨h1.1.1, h1.2.1 (fun i => rfl), h2.2.2 ?_ ?_⟩
  · intro i j hij hqi
    simp only [qLate, decide_eq_true_eq] at hqi ⊢
    omega
  · exact ⟨3, by omega, by decide⟩
